import Mathlib

/-!
Verification of the sentence-pair similarity notebook
(`Practica_Final_DL_NLP_MAM.ipynb`): a shallow embedding of its
data-ingestion, collation, freeze-policy, loss, checkpointing and
inference-normalization logic, with theorems checking the
natural-language specification against the embedded code.

Scores and labels are modelled as rationals (`ℚ`); tensor arithmetic
that the source performs with floating point (Pearson loss, tanh
normalization) is modelled over the reals (`ℝ`).  Lean's total
division (`x / 0 = 0`) stands in for the float semantics at division
by zero; theorems about those points state that the zero denominator
is reached, which in the source silently yields `NaN`.
-/

/-! ## Data ingestion (`load_custom_dataset`, notebook cell at lines 114-151) -/

/-- The `normalize_labels` inner function of `load_custom_dataset`:
every source score is divided by 5. -/
def normalize_labels (scores : List ℚ) : List ℚ :=
  scores.map (fun s => s / 5)

/-- The `score` column of the built-in example data used by
`load_custom_dataset` when no CSV path is given. -/
def example_scores : List ℚ :=
  [24/5, 9/2, 47/10, 23/5, 2]

/-- `load_custom_dataset(csv_path)`: scores come from the CSV when a path is
given, otherwise from the built-in example data; both branches then apply
`normalize_labels`. -/
def load_custom_dataset (csvScores : Option (List ℚ)) : List ℚ :=
  match csvScores with
  | some s => normalize_labels s
  | none => normalize_labels example_scores

/-- The top-level ingestion expression of the notebook
(`dataset = load_dataset("mteb/stsbenchmark-sts") if csv_path is None else
load_custom_dataset(csv_path)`): when `csv_path` is `None` the raw STS
benchmark scores are used directly and `load_custom_dataset` — and with it
the `/ 5` normalization — is bypassed. -/
def ingest_labels (csvScores : Option (List ℚ)) (stsScores : List ℚ) : List ℚ :=
  match csvScores with
  | some s => load_custom_dataset (some s)
  | none => stsScores

/-! ## Checkpoint decision (`train_model`, notebook cell at lines 666-697) -/

/-- One epoch's checkpoint decision in `train_model`:
`if pearson_corr > best_pearson: best_pearson = pearson_corr; torch.save(...)`.
The best-metric sentinel starts at `-float("inf")`, modelled by `⊥` in
`WithBot ℚ`; the stored checkpoint's metric always equals the sentinel after
the first save. -/
def checkpoint_step (best : WithBot ℚ) (metric : ℚ) : WithBot ℚ :=
  if best < (metric : WithBot ℚ) then (metric : WithBot ℚ) else best

/-- The metric of the stored checkpoint after a run that observed the given
validation metrics in order, starting from the `-inf` sentinel. -/
def best_checkpoint (metrics : List ℚ) : WithBot ℚ :=
  metrics.foldl checkpoint_step ⊥

lemma checkpoint_step_eq_max (b : WithBot ℚ) (m : ℚ) :
    checkpoint_step b m = max b (m : WithBot ℚ) := by
  unfold checkpoint_step
  rcases lt_or_le b (m : WithBot ℚ) with h | h
  · simp [h, max_eq_right h.le]
  · simp [not_lt.mpr h, max_eq_left h]

lemma le_foldl_checkpoint (metrics : List ℚ) :
    ∀ b : WithBot ℚ, b ≤ metrics.foldl checkpoint_step b ∧
      ∀ m : ℚ, m ∈ metrics → (m : WithBot ℚ) ≤ metrics.foldl checkpoint_step b := by
  induction metrics with
  | nil => intro b; exact ⟨le_refl b, fun m hm => absurd hm (List.not_mem_nil m)⟩
  | cons x xs ih =>
      intro b
      have hstep : b ≤ checkpoint_step b x := by
        rw [checkpoint_step_eq_max]; exact le_max_left _ _
      have hx : (x : WithBot ℚ) ≤ checkpoint_step b x := by
        rw [checkpoint_step_eq_max]; exact le_max_right _ _
      refine ⟨le_trans hstep (ih (checkpoint_step b x)).1, ?_⟩
      intro m hm
      rcases List.mem_cons.mp hm with hmx | hmem
      · rw [hmx]; exact le_trans hx (ih (checkpoint_step b x)).1
      · exact (ih (checkpoint_step b x)).2 m hmem

/-! ## Freeze policy (`SentenceSimilarityModelOne.__init__`,
`SiameseBERT.__init__`, `CrossAttentionModel.__init__`) -/

/-- Trainability flags of an encoder: the embedding parameters and one flag
per encoder layer index. -/
structure EncoderParams where
  embeddingsTrainable : Bool
  layerTrainable : ℕ → Bool

/-- The freeze loop shared by all three model constructors:
`for i, param in enumerate(self.bert.encoder.layer): if i < (len(...) -
freeze_layers): p.requires_grad = False`.  Only encoder layers with index
below `N - freeze_layers` (integer subtraction, as in Python) are frozen;
the embedding parameters are never touched. -/
def apply_freeze_policy (N freeze_layers : ℕ) (p : EncoderParams) : EncoderParams :=
  { embeddingsTrainable := p.embeddingsTrainable
    layerTrainable := fun i =>
      if i < N ∧ (i : ℤ) < (N : ℤ) - (freeze_layers : ℤ) then false
      else p.layerTrainable i }

/-- A fresh pretrained encoder: every parameter trainable. -/
def allTrainableParams : EncoderParams :=
  { embeddingsTrainable := true, layerTrainable := fun _ => true }

/-- The set of encoder layer indices left trainable by the freeze policy,
as a function of the layer count and the freeze depth alone. -/
def trainable_layer_indices (N freeze_layers : ℕ) : Finset ℕ :=
  (Finset.range N).filter
    (fun i => (apply_freeze_policy N freeze_layers allTrainableParams).layerTrainable i = true)

/-! ## Dynamic batch collator (`CustomDataCollatorWithPadding`,
notebook cell at lines 349-374) -/

/-- One pre-tokenized sentence pair as held by `STSDataset`: two
independently tokenized sides and the stored label. -/
structure TokenizedPair where
  ids1 : List ℕ
  mask1 : List ℕ
  ids2 : List ℕ
  mask2 : List ℕ
  label : ℚ

/-- Pad one sequence on the right up to width `L` with the value `pad`
(the identity when the sequence is already at least `L` long). -/
def padTo (pad : ℕ) (L : ℕ) (xs : List ℕ) : List ℕ :=
  xs ++ List.replicate (L - xs.length) pad

/-- The batch-local maximum length over a list of sequences. -/
def batch_max (xss : List (List ℕ)) : ℕ :=
  (xss.map List.length).foldr max 0

/-- Modelled from the spec: the inner `DataCollatorWithPadding` of the
`transformers` library (external to this repository) with its default
dynamic padding, as §4.1 and §6 describe it — every sequence of the batch
is padded to the batch-local maximum with the pad token id, and mask
sequences are padded with `0`. -/
def pad_side (pad : ℕ) (xss : List (List ℕ)) : List (List ℕ) :=
  xss.map (padTo pad (batch_max xss))

/-- The collated batch produced by `CustomDataCollatorWithPadding.__call__`. -/
structure Batch where
  ids1 : List (List ℕ)
  mask1 : List (List ℕ)
  ids2 : List (List ℕ)
  mask2 : List (List ℕ)
  labels : List ℚ

/-- `CustomDataCollatorWithPadding.__call__`: side 1 and side 2 are split
into separate feature lists, each padded by its own `padding_collator` call,
and the labels are collected, in input order, into one float vector. -/
def collate (padId : ℕ) (examples : List TokenizedPair) : Batch :=
  { ids1 := pad_side padId (examples.map TokenizedPair.ids1)
    mask1 := pad_side 0 (examples.map TokenizedPair.mask1)
    ids2 := pad_side padId (examples.map TokenizedPair.ids2)
    mask2 := pad_side 0 (examples.map TokenizedPair.mask2)
    labels := examples.map TokenizedPair.label }

/-! ## Masked mean pooling (`CrossAttentionModel.forward`, lines 516-522) -/

/-- The per-example masked mean pooling of `CrossAttentionModel.forward`,
for one feature dimension: `(output * mask).sum(dim=1) / mask.sum(dim=1)`.
`hidden` holds this feature's value at each token position.  There is no
guard on the denominator: a mask summing to `0` reaches the division
(in the source's float arithmetic, `0/0 = NaN`). -/
def masked_mean_pool (hidden mask : List ℚ) : ℚ :=
  (List.zipWith (fun h m => h * m) hidden mask).sum / mask.sum

/-- The denominator of `masked_mean_pool`: the example's mask sum. -/
def pool_mask_sum (mask : List ℚ) : ℚ :=
  mask.sum

/-! ## Tokenizer invocations (`tokenize_function`, lines 216-240, and
`infer_similarity`, lines 715-731) -/

/-- One tokenizer result: token ids and the matching attention mask. -/
structure Encoding where
  ids : List ℕ
  mask : List ℕ

/-- The `padding` argument a tokenizer call passes. -/
inductive PaddingMode where
  | nopad
  | padToMaxLength

/-- Modelled from the spec: the external Hugging Face tokenizer (not part of
this repository) at its interface as §6 describes it — the text's token
sequence is truncated to `max_length`; with `padding=False` the true-length
ids and an all-ones mask are returned, while with `padding="max_length"`
pad ids and mask zeros are appended up to `max_length`. -/
def hf_tokenize (padId : ℕ) (mode : PaddingMode) (maxLen : ℕ)
    (tokens : List ℕ) : Encoding :=
  let t := tokens.take maxLen
  match mode with
  | PaddingMode.nopad =>
      { ids := t, mask := List.replicate t.length 1 }
  | PaddingMode.padToMaxLength =>
      { ids := t ++ List.replicate (maxLen - t.length) padId
        mask := List.replicate t.length 1 ++ List.replicate (maxLen - t.length) 0 }

/-- `tokenize_function`'s tokenizer call for either sentence column:
`padding=False, truncation=True, max_length=128`. -/
def tokenize_function (padId : ℕ) (tokens : List ℕ) : Encoding :=
  hf_tokenize padId PaddingMode.nopad 128 tokens

/-- `infer_similarity`'s tokenizer call for either sentence:
`padding="max_length", truncation=True, max_length=128`. -/
def infer_tokenize (padId : ℕ) (tokens : List ℕ) : Encoding :=
  hf_tokenize padId PaddingMode.padToMaxLength 128 tokens

/-! ## Head output shape (`forward` of all three models: the final
`.squeeze()` on the `[B, 1]` regressor output) -/

/-- `torch.Tensor.squeeze()` on a shape: every axis of extent 1 is removed. -/
def squeeze_shape (shape : List ℕ) : List ℕ :=
  shape.filter (fun d => d ≠ 1)

/-- The shape returned by each scoring head's forward pass for batch size
`B`: the regressor ends in `Linear(256, 1)`, so the pre-squeeze output has
shape `[B, 1]`, and `forward` returns `self.regressor(combined).squeeze()`. -/
def head_output_shape (B : ℕ) : List ℕ :=
  squeeze_shape [B, 1]

/-! ## Loss functions (`pearson_correlation_loss`, lines 553-559, and the
loss selection in `train_model`, lines 680-683) -/

/-- The mean of a list of reals (`torch.mean`). -/
noncomputable def listMean (xs : List ℝ) : ℝ :=
  xs.sum / xs.length

/-- Centering, as the first two lines of `pearson_correlation_loss` do it:
`outputs - torch.mean(outputs)`. -/
noncomputable def center (xs : List ℝ) : List ℝ :=
  xs.map (fun x => x - listMean xs)

/-- `torch.sqrt(torch.sum(v ** 2))` for a centered vector `v`. -/
noncomputable def centered_norm (xs : List ℝ) : ℝ :=
  Real.sqrt (((center xs).map (fun x => x ^ 2)).sum)

/-- The denominator of the correlation in `pearson_correlation_loss`:
`norm_outputs * norm_targets`.  The code divides by it unconditionally. -/
noncomputable def pearson_denominator (outputs targets : List ℝ) : ℝ :=
  centered_norm outputs * centered_norm targets

/-- `pearson_correlation_loss(outputs, targets)`: both vectors are centered,
`correlation = torch.sum(outputs * targets) / (norm_outputs * norm_targets)`,
and `1 - correlation` is returned. -/
noncomputable def pearson_correlation_loss (outputs targets : List ℝ) : ℝ :=
  1 - (List.zipWith (fun a b => a * b) (center outputs) (center targets)).sum /
        pearson_denominator outputs targets

/-- `torch.nn.MSELoss()(outputs, labels)`: the mean of the squared
elementwise differences. -/
noncomputable def mseLoss (outputs targets : List ℝ) : ℝ :=
  (List.zipWith (fun a b => (a - b) ^ 2) outputs targets).sum / outputs.length

/-- The `model_type` tag of `train_model` (and the three model classes). -/
inductive ModelType where
  | bert
  | siamese
  | cross
deriving DecidableEq

/-- The per-batch loss selection of `train_model`:
`if model_type == "siamese": loss = pearson_correlation_loss(outputs, labels)
else: loss = torch.nn.MSELoss()(outputs, labels)`. -/
noncomputable def select_loss (mt : ModelType) (outputs labels : List ℝ) : ℝ :=
  match mt with
  | ModelType.siamese => pearson_correlation_loss outputs labels
  | _ => mseLoss outputs labels

/-- The textbook Pearson correlation coefficient, written as the spec's
words have it: covariance over the product of the standard deviations,
each computed with the population convention over the batch. -/
noncomputable def spec_pearson (xs ys : List ℝ) : ℝ :=
  ((List.zipWith (fun a b => a * b) (center xs) (center ys)).sum / xs.length) /
    (Real.sqrt (((center xs).map (fun x => x ^ 2)).sum / xs.length) *
      Real.sqrt (((center ys).map (fun y => y ^ 2)).sum / xs.length))

/-! ## Inference normalization (`infer_similarity`, lines 738-743) -/

/-- The output un-scaling at the end of `infer_similarity`:
`if isinstance(model, SiameseBERT): similarity = torch.tanh(similarity) * 2.5
+ 2.5 else: similarity = similarity * 5`. -/
noncomputable def normalize_score (mt : ModelType) (raw : ℝ) : ℝ :=
  match mt with
  | ModelType.siamese => Real.tanh raw * 2.5 + 2.5
  | _ => raw * 5

/-! ## Theorems for the specification claims -/

/-- Claim C1 (code bug): in the notebook's default run (`csv_path = None`)
the STS-benchmark scores are ingested without being divided by 5 — the
top-level conditional bypasses `load_custom_dataset` and with it the
normalization — while the CSV branch does normalize; at source score 5 the
stored label is 5, not the claimed 5 / 5 = 1. -/
theorem C1_default_path_skips_normalization :
    ingest_labels none [5] = [5] ∧
    load_custom_dataset (some [5]) = [1] ∧
    ingest_labels none [5] ≠ normalize_labels [5] := by
  refine ⟨rfl, ?_, ?_⟩ <;>
    simp [ingest_labels, load_custom_dataset, normalize_labels]

/-- Claim C2: the checkpoint decision writes only on a strict improvement
(`checkpoint_step` leaves the stored best unchanged whenever the new metric
does not strictly exceed it), and the stored checkpoint's metric after any
run is at least every validation metric observed during that run. -/
theorem C2_checkpoint_monotonicity (metrics : List ℚ) (m : ℚ) (b : WithBot ℚ)
    (hm : m ∈ metrics) (hno : ¬ b < (m : WithBot ℚ)) :
    (m : WithBot ℚ) ≤ best_checkpoint metrics ∧ checkpoint_step b m = b := by
  refine ⟨(le_foldl_checkpoint metrics ⊥).2 m hm, ?_⟩
  unfold checkpoint_step
  simp [hno]

/-- Witness for C2 at the run `[1/2, 1/4]` with the non-improving metric
`1/4` arriving while the stored best is `1/2`. -/
theorem C2_checkpoint_monotonicity_witness :
    ((1/4 : ℚ) : WithBot ℚ) ≤ best_checkpoint [1/2, 1/4] ∧
    checkpoint_step ((1/2 : ℚ) : WithBot ℚ) (1/4) = ((1/2 : ℚ) : WithBot ℚ) :=
  C2_checkpoint_monotonicity [1/2, 1/4] (1/4) ((1/2 : ℚ) : WithBot ℚ)
    (by simp) (by simp [WithBot.coe_lt_coe]; norm_num)

/-- Claim C7 (code bug): the masked mean pooling of
`CrossAttentionModel.forward` has no guard on the mask sum — an example
whose mask is all zeros reaches the division with denominator 0 and still
yields a value (Lean's total division returns 0 where the source's float
division returns `NaN`), instead of a defined error. -/
theorem C7_zero_mask_sum_unguarded :
    pool_mask_sum [0, 0, 0] = 0 ∧
    masked_mean_pool [1, 2, 3] [0, 0, 0] = 0 := by
  constructor <;> norm_num [pool_mask_sum, masked_mean_pool]

/-- Claim C8 (counterexample): `infer_similarity` tokenizes with
`padding="max_length"`, so for a 3-token sentence the returned ids run to
the full width 128, not the sentence's true token length — the claim that
no core tokenizer invocation ever pads is false on the inference path. -/
theorem C8_inference_tokenization_pads :
    (infer_tokenize 0 [101, 7592, 102]).ids.length = 128 ∧
    (infer_tokenize 0 [101, 7592, 102]).ids.length ≠ 3 := by
  constructor <;> simp [infer_tokenize, hf_tokenize, List.length_take]

/-- Claim C8, amended: the dataset-preprocessing tokenization
(`tokenize_function`, `padding=False`) truncates to 128 and never pads —
ids are exactly the first 128 tokens, the mask is all ones of the same true
length — while the per-pair inference tokenization (`padding="max_length"`)
always returns width-128 ids and mask. -/
theorem C8_tokenizer_padding_amended (padId : ℕ) (tokens : List ℕ) :
    (tokenize_function padId tokens).ids = tokens.take 128 ∧
    (tokenize_function padId tokens).ids.length = min tokens.length 128 ∧
    (tokenize_function padId tokens).mask =
      List.replicate (tokenize_function padId tokens).ids.length 1 ∧
    (infer_tokenize padId tokens).ids.length = 128 ∧
    (infer_tokenize padId tokens).mask.length = 128 := by
  have htake : (tokens.take 128).length ≤ 128 := by
    simp [List.length_take]
  refine ⟨rfl, ?_, rfl, ?_, ?_⟩
  · simp [tokenize_function, hf_tokenize, List.length_take]
    omega
  · simp [infer_tokenize, hf_tokenize, List.length_take]
  · simp [infer_tokenize, hf_tokenize, List.length_take]

/-- Claim C10: each scoring head ends in `Linear(256, 1)` followed by
`.squeeze()`, so for batch size 1 the pre-squeeze shape `[1, 1]` collapses
to a 0-dimensional scalar (shape `[]`), not the advertised length-1 vector
`[1]`; for batch sizes ≥ 2 the advertised shape `[B]` does hold. -/
theorem C10_squeeze_drops_batch_dim (B : ℕ) (hB : 2 ≤ B) :
    head_output_shape 1 = [] ∧
    head_output_shape 1 ≠ [1] ∧
    head_output_shape B = [B] := by
  have hne : B ≠ 1 := by omega
  refine ⟨by decide, by decide, ?_⟩
  simp [head_output_shape, squeeze_shape, hne]

/-- Witness for C10 at batch size 3. -/
theorem C10_squeeze_drops_batch_dim_witness :
    head_output_shape 1 = [] ∧
    head_output_shape 1 ≠ [1] ∧
    head_output_shape 3 = [3] :=
  C10_squeeze_drops_batch_dim 3 (by norm_num)

/-- Claim C6: with freeze depth `f ≤ N`, the shared freeze loop marks
exactly the encoder layers of index below `N − f` non-trainable, leaves the
layers of index at least `N − f` (the top `f`) as they were, never touches
the embedding parameters, and the resulting trainable layer-index set is
the interval `[N − f, N)` — a pure function of `(N, f)` of cardinality `f`. -/
theorem C6_freeze_policy (N f : ℕ) (p : EncoderParams) (i : ℕ) (hfN : f ≤ N) :
    (apply_freeze_policy N f p).embeddingsTrainable = p.embeddingsTrainable ∧
    (i < N - f → (apply_freeze_policy N f p).layerTrainable i = false) ∧
    (N - f ≤ i → (apply_freeze_policy N f p).layerTrainable i = p.layerTrainable i) ∧
    trainable_layer_indices N f = Finset.Ico (N - f) N ∧
    (trainable_layer_indices N f).card = f := by
  have hico : trainable_layer_indices N f = Finset.Ico (N - f) N := by
    ext j
    by_cases hc : j < N ∧ (j : ℤ) < (N : ℤ) - (f : ℤ)
    · simp [trainable_layer_indices, Finset.mem_filter, Finset.mem_range,
        apply_freeze_policy, allTrainableParams, if_pos hc, Finset.mem_Ico]
      omega
    · simp [trainable_layer_indices, Finset.mem_filter, Finset.mem_range,
        apply_freeze_policy, allTrainableParams, if_neg hc, Finset.mem_Ico]
      omega
  refine ⟨rfl, ?_, ?_, hico, ?_⟩
  · intro hi
    have hc : i < N ∧ (i : ℤ) < (N : ℤ) - (f : ℤ) := by omega
    simp only [apply_freeze_policy, if_pos hc]
  · intro hi
    have hc : ¬ (i < N ∧ (i : ℤ) < (N : ℤ) - (f : ℤ)) := by omega
    simp only [apply_freeze_policy, if_neg hc]
  · rw [hico, Nat.card_Ico]
    omega

/-- Witness for C6 at `N = 6` encoder layers and freeze depth `f = 2`
(the notebook's configuration): layer 1 gets frozen, layer 4 stays
trainable, embeddings stay trainable, and the trainable-index set is
`{4, 5}`. -/
theorem C6_freeze_policy_witness :
    (apply_freeze_policy 6 2 allTrainableParams).layerTrainable 1 = false ∧
    (apply_freeze_policy 6 2 allTrainableParams).layerTrainable 4 = true ∧
    (apply_freeze_policy 6 2 allTrainableParams).embeddingsTrainable = true ∧
    trainable_layer_indices 6 2 = Finset.Ico 4 6 ∧
    (trainable_layer_indices 6 2).card = 2 := by
  have h1 := C6_freeze_policy 6 2 allTrainableParams 1 (by norm_num)
  have h4 := C6_freeze_policy 6 2 allTrainableParams 4 (by norm_num)
  refine ⟨h1.2.1 (by norm_num), ?_, h1.1, h1.2.2.2.1, h1.2.2.2.2⟩
  rw [h4.2.2.1 (by norm_num)]
  rfl

/-! ### Collator lemmas -/

lemma le_foldr_max (l : List ℕ) (a : ℕ) (ha : a ∈ l) : a ≤ l.foldr max 0 := by
  induction l with
  | nil => cases ha
  | cons x xs ih =>
      rcases List.mem_cons.mp ha with h | h
      · rw [h, List.foldr_cons]; exact le_max_left _ _
      · exact le_trans (ih h) (le_max_right _ _)

lemma length_le_batch_max (xss : List (List ℕ)) (xs : List ℕ) (h : xs ∈ xss) :
    xs.length ≤ batch_max xss :=
  le_foldr_max _ _ (List.mem_map_of_mem List.length h)

lemma padTo_length (pad L : ℕ) (xs : List ℕ) (h : xs.length ≤ L) :
    (padTo pad L xs).length = L := by
  simp [padTo]
  omega

lemma pad_side_getD (pad : ℕ) (xss : List (List ℕ)) (i : ℕ) (h : i < xss.length) :
    (pad_side pad xss).getD i [] = padTo pad (batch_max xss) xss[i] := by
  simp [pad_side, List.getD_eq_getElem?_getD, List.getElem?_eq_getElem h]

/-- Claim C5: the collator pads each side independently to that side's own
batch-local maximum width (every padded row of side 1 has width
`batch_max` of side 1, and likewise for side 2), appends the pad token id
to the ids and `0` to the masks exactly beyond each example's true length
while keeping each example's own prefix unchanged, and stacks the labels
into one vector in the input order. -/
theorem C5_collator_padding (padId : ℕ) (es : List TokenizedPair) (i : ℕ)
    (h : i < es.length) :
    (collate padId es).labels = es.map TokenizedPair.label ∧
    ((collate padId es).ids1.getD i []).length = batch_max (es.map TokenizedPair.ids1) ∧
    ((collate padId es).ids2.getD i []).length = batch_max (es.map TokenizedPair.ids2) ∧
    (collate padId es).ids1.getD i [] =
      es[i].ids1 ++
        List.replicate (batch_max (es.map TokenizedPair.ids1) - es[i].ids1.length) padId ∧
    (collate padId es).mask1.getD i [] =
      es[i].mask1 ++
        List.replicate (batch_max (es.map TokenizedPair.mask1) - es[i].mask1.length) 0 ∧
    (collate padId es).mask2.getD i [] =
      es[i].mask2 ++
        List.replicate (batch_max (es.map TokenizedPair.mask2) - es[i].mask2.length) 0 := by
  have h1 : i < (es.map TokenizedPair.ids1).length := by simpa using h
  have h2 : i < (es.map TokenizedPair.ids2).length := by simpa using h
  have h3 : i < (es.map TokenizedPair.mask1).length := by simpa using h
  have h4 : i < (es.map TokenizedPair.mask2).length := by simpa using h
  have e1 : (es.map TokenizedPair.ids1)[i] = es[i].ids1 := by
    simp [List.getElem_map]
  have e2 : (es.map TokenizedPair.ids2)[i] = es[i].ids2 := by
    simp [List.getElem_map]
  have e3 : (es.map TokenizedPair.mask1)[i] = es[i].mask1 := by
    simp [List.getElem_map]
  have e4 : (es.map TokenizedPair.mask2)[i] = es[i].mask2 := by
    simp [List.getElem_map]
  have m1 : es[i].ids1.length ≤ batch_max (es.map TokenizedPair.ids1) := by
    refine length_le_batch_max _ _ ?_
    rw [← e1]
    exact List.getElem_mem h1
  have m2 : es[i].ids2.length ≤ batch_max (es.map TokenizedPair.ids2) := by
    refine length_le_batch_max _ _ ?_
    rw [← e2]
    exact List.getElem_mem h2
  refine ⟨rfl, ?_, ?_, ?_, ?_, ?_⟩
  · rw [show (collate padId es).ids1 = pad_side padId (es.map TokenizedPair.ids1) from rfl,
      pad_side_getD padId _ i h1, e1, padTo_length _ _ _ m1]
  · rw [show (collate padId es).ids2 = pad_side padId (es.map TokenizedPair.ids2) from rfl,
      pad_side_getD padId _ i h2, e2, padTo_length _ _ _ m2]
  · rw [show (collate padId es).ids1 = pad_side padId (es.map TokenizedPair.ids1) from rfl,
      pad_side_getD padId _ i h1, e1]
    rfl
  · rw [show (collate padId es).mask1 = pad_side 0 (es.map TokenizedPair.mask1) from rfl,
      pad_side_getD 0 _ i h3, e3]
    rfl
  · rw [show (collate padId es).mask2 = pad_side 0 (es.map TokenizedPair.mask2) from rfl,
      pad_side_getD 0 _ i h4, e4]
    rfl

/-- A two-example batch with side-1 lengths `{2, 1}` and side-2 lengths
`{1, 3}` used as the concrete collator witness. -/
def collatorExample : List TokenizedPair :=
  [{ ids1 := [11, 12], mask1 := [1, 1], ids2 := [21], mask2 := [1], label := 3/5 },
   { ids1 := [13], mask1 := [1], ids2 := [22, 23, 24], mask2 := [1, 1, 1], label := 4/5 }]

/-- Witness for C5 on `collatorExample` at row 0: the padded side-1 width is
that side's batch maximum 2, the padded side-2 width is that side's own
batch maximum 3, padding ids/mask zeros land exactly beyond the row's true
length, and the labels keep the input order. -/
theorem C5_collator_padding_witness :
    (collate 99 collatorExample).labels = collatorExample.map TokenizedPair.label ∧
    ((collate 99 collatorExample).ids1.getD 0 []).length =
      batch_max (collatorExample.map TokenizedPair.ids1) ∧
    ((collate 99 collatorExample).ids2.getD 0 []).length =
      batch_max (collatorExample.map TokenizedPair.ids2) ∧
    (collate 99 collatorExample).ids1.getD 0 [] =
      collatorExample[0].ids1 ++
        List.replicate
          (batch_max (collatorExample.map TokenizedPair.ids1) -
            collatorExample[0].ids1.length) 99 ∧
    (collate 99 collatorExample).mask1.getD 0 [] =
      collatorExample[0].mask1 ++
        List.replicate
          (batch_max (collatorExample.map TokenizedPair.mask1) -
            collatorExample[0].mask1.length) 0 ∧
    (collate 99 collatorExample).mask2.getD 0 [] =
      collatorExample[0].mask2 ++
        List.replicate
          (batch_max (collatorExample.map TokenizedPair.mask2) -
            collatorExample[0].mask2.length) 0 :=
  C5_collator_padding 99 collatorExample 0 (by simp [collatorExample])

/-! ### Bounds for the hyperbolic tangent -/

lemma real_tanh_lt_one (x : ℝ) : Real.tanh x < 1 := by
  rw [Real.tanh_eq_sinh_div_cosh]
  exact (div_lt_one (Real.cosh_pos x)).mpr (Real.sinh_lt_cosh x)

lemma neg_one_lt_real_tanh (x : ℝ) : -1 < Real.tanh x := by
  rw [Real.tanh_eq_sinh_div_cosh]
  have h : Real.sinh (-x) < Real.cosh (-x) := Real.sinh_lt_cosh (-x)
  rw [Real.sinh_neg, Real.cosh_neg] at h
  rw [lt_div_iff₀ (Real.cosh_pos x)]
  linarith

/-- Claim C9: the inference normalizer multiplies the sigmoid-bounded heads
(Concatenation, Cross-Attention) by 5 and squashes the Siamese head through
`tanh(x) * 2.5 + 2.5`; for a sigmoid-bounded raw output in `[0, 1]` and for
any real Siamese raw output the returned external score lies in `[0, 5]`. -/
theorem C9_inference_normalizer (mt : ModelType) (x y : ℝ)
    (h0 : 0 ≤ x) (h1 : x ≤ 1) :
    normalize_score ModelType.bert x = x * 5 ∧
    normalize_score ModelType.cross x = x * 5 ∧
    normalize_score ModelType.siamese y = Real.tanh y * 2.5 + 2.5 ∧
    0 ≤ normalize_score mt x ∧ normalize_score mt x ≤ 5 ∧
    0 ≤ normalize_score ModelType.siamese y ∧
    normalize_score ModelType.siamese y ≤ 5 := by
  have hyl := real_tanh_lt_one y
  have hyg := neg_one_lt_real_tanh y
  have hsia : ∀ z : ℝ, normalize_score ModelType.siamese z =
      Real.tanh z * 2.5 + 2.5 := fun z => rfl
  refine ⟨rfl, rfl, rfl, ?_, ?_, ?_, ?_⟩
  · cases mt with
    | siamese =>
        have := neg_one_lt_real_tanh x
        rw [hsia x]; nlinarith
    | bert => show 0 ≤ x * 5; nlinarith
    | cross => show 0 ≤ x * 5; nlinarith
  · cases mt with
    | siamese =>
        have := real_tanh_lt_one x
        rw [hsia x]; nlinarith
    | bert => show x * 5 ≤ 5; nlinarith
    | cross => show x * 5 ≤ 5; nlinarith
  · rw [hsia y]; nlinarith
  · rw [hsia y]; nlinarith

/-- Witness for C9 at the Concatenation head with raw output `1/2` and the
Siamese head with raw output `0`. -/
theorem C9_inference_normalizer_witness :
    normalize_score ModelType.bert (1/2) = (1/2 : ℝ) * 5 ∧
    normalize_score ModelType.cross (1/2) = (1/2 : ℝ) * 5 ∧
    normalize_score ModelType.siamese 0 = Real.tanh 0 * 2.5 + 2.5 ∧
    0 ≤ normalize_score ModelType.bert (1/2 : ℝ) ∧
    normalize_score ModelType.bert (1/2 : ℝ) ≤ 5 ∧
    0 ≤ normalize_score ModelType.siamese (0 : ℝ) ∧
    normalize_score ModelType.siamese (0 : ℝ) ≤ 5 :=
  C9_inference_normalizer ModelType.bert (1/2) 0 (by norm_num) (by norm_num)

/-- Claim C4 (code bug): `pearson_correlation_loss` performs no
zero-variance detection — for the constant prediction vector `[1/2, 1/2]`
the denominator `norm_outputs * norm_targets` is 0, yet the division is
still executed and a value is produced (0-division is total here; the
source's float arithmetic silently yields `NaN`). -/
theorem C4_zero_variance_unguarded :
    pearson_denominator [(1:ℝ)/2, 1/2] [0, 1] = 0 ∧
    pearson_correlation_loss [(1:ℝ)/2, 1/2] [0, 1] = 1 := by
  have hc : center [(1:ℝ)/2, 1/2] = [0, 0] := by
    norm_num [center, listMean]
  have hd : pearson_denominator [(1:ℝ)/2, 1/2] [0, 1] = 0 := by
    rw [pearson_denominator, centered_norm, hc]
    norm_num
  refine ⟨hd, ?_⟩
  rw [pearson_correlation_loss, hd, hc]
  norm_num

/-! ### Pearson correlation: the code's formula versus the textbook one -/

lemma sum_sq_nonneg (xs : List ℝ) : 0 ≤ (xs.map (fun x => x ^ 2)).sum := by
  apply List.sum_nonneg
  intro y hy
  obtain ⟨x, _, rfl⟩ := List.mem_map.mp hy
  positivity

lemma mean_scaled_div (S A B n : ℝ) (hn : 0 < n) (hA : 0 ≤ A) (hB : 0 ≤ B) :
    (S / n) / (Real.sqrt (A / n) * Real.sqrt (B / n)) =
      S / (Real.sqrt A * Real.sqrt B) := by
  have hself : Real.sqrt n * Real.sqrt n = n := Real.mul_self_sqrt hn.le
  rw [Real.sqrt_div hA n, Real.sqrt_div hB n, div_mul_div_comm, hself]
  rcases eq_or_ne (Real.sqrt A * Real.sqrt B) 0 with hz | hz
  · rw [hz]
    simp
  · field_simp

/-- Claim C3: `train_model`'s per-batch loss is selected by architecture —
the Siamese tag gets `pearson_correlation_loss`, which equals 1 minus the
textbook Pearson correlation of outputs and labels, and the other two tags
get the mean squared error. -/
theorem C3_loss_selection (o t : List ℝ) (h : 0 < o.length) :
    select_loss ModelType.siamese o t = 1 - spec_pearson o t ∧
    select_loss ModelType.bert o t = mseLoss o t ∧
    select_loss ModelType.cross o t = mseLoss o t := by
  refine ⟨?_, rfl, rfl⟩
  show pearson_correlation_loss o t = 1 - spec_pearson o t
  have hn : (0:ℝ) < (o.length : ℝ) := by exact_mod_cast h
  rw [pearson_correlation_loss, spec_pearson, pearson_denominator,
    centered_norm, centered_norm,
    mean_scaled_div _ _ _ _ hn (sum_sq_nonneg _) (sum_sq_nonneg _)]

/-- Witness for C3 at the concrete batch `outputs = labels = [0, 2]`. -/
theorem C3_loss_selection_witness :
    select_loss ModelType.siamese [0, 2] [0, 2] = 1 - spec_pearson [0, 2] [0, 2] ∧
    select_loss ModelType.bert [0, 2] [0, 2] = mseLoss [0, 2] [0, 2] ∧
    select_loss ModelType.cross [0, 2] [0, 2] = mseLoss [0, 2] [0, 2] :=
  C3_loss_selection [0, 2] [0, 2] (by norm_num)
